import Mathlib

/-!
Shallow embedding of `pyformat.py`: the pipeline composer (`formatters`),
the pipeline executor (`run_pipeline` / `format_code`), encoding detection
(`detect_io_encoding`, `read_file`), per-file processing (`format_file`,
`_format_file`), the batch dispatcher (`format_multiple_files`) and the
entry point (`_main`).

External collaborators (the third-party formatter stages, the filesystem
and stdin buffer, the `lib2to3` encoding sniffer, the codecs, diff
rendering, `autopep8.find_files`, and Python `set` enumeration) are
supplied as an explicit environment (`Ext`, `EncodingEnv`); the control
flow of `pyformat.py` itself is translated directly.  Python exceptions
are modelled by `Except PyExc`; writes to the output and error sinks are
modelled as an explicit event list.
-/

namespace Pyformat

/-- A byte of the raw input. -/
abbrev Byte := Fin 256

/-- Latin-1 decoding: every byte is a valid one-byte character, so this
decoding is total on arbitrary byte sequences. -/
def decodeLatin1 (bs : List Byte) : String :=
  String.mk (bs.map (fun b => Char.ofNat b.val))

/-- The failure modes of `lib2to3.pgen2.tokenize.detect_encoding` that
`detect_io_encoding` catches (`SyntaxError`, `LookupError`). -/
inductive SniffErr
  | syntaxError
  | lookupError
deriving Repr, DecidableEq

/-- The encoding layer of the environment.

`sniff bs` models `lib2to3.pgen2.tokenize.detect_encoding(input_file.readline)`
on a `BytesIO` over `bs`: on success it yields the declared encoding name
together with the number of leading bytes the `readline` calls consumed
(the file position afterwards); on failure it yields the raised error.

`decodes enc bs` models `bs.decode(enc)`: `some text` on success, `none`
when the codec raises (`UnicodeDecodeError`, or `LookupError` for an
unknown name).  `latin1_total` records the codec fact that latin-1
decodes any byte sequence. -/
structure EncodingEnv where
  sniff : List Byte → SniffErr ⊕ (String × Nat)
  decodes : String → List Byte → Option String
  latin1_total : ∀ bs, decodes "latin-1" bs = some (decodeLatin1 bs)

/-- Model of `detect_io_encoding(input_file, limit_byte_check=-1)`: sniff a declared
encoding, then validate it by decoding `input_file.read(limit_byte_check)`
— the bytes after the position the sniffer left, all of them when the
limit is negative.  Any `LookupError`, `SyntaxError` or
`UnicodeDecodeError` is caught and latin-1 is returned instead. -/
def detect_io_encoding (env : EncodingEnv) (bs : List Byte)
    (limit_byte_check : Int := -1) : String :=
  match env.sniff bs with
  | Sum.inl _ => "latin-1"
  | Sum.inr (encoding, consumed) =>
      let checked :=
        if limit_byte_check < 0 then bs.drop consumed
        else (bs.drop consumed).take limit_byte_check.toNat
      match env.decodes encoding checked with
      | some _ => encoding
      | none => "latin-1"

/-- The Python exceptions relevant to the handlers in `pyformat.py`.
`ioError` covers the `IOError`/`OSError` class caught in `_format_file`;
`unicodeDecodeError` is the (non-IOError) failure of `data.decode` in
`read_file`; `otherError` stands for any further exception class. -/
inductive PyExc
  | ioError (msg : String)
  | keyboardInterrupt
  | unicodeDecodeError
  | otherError (msg : String)
deriving Repr, DecidableEq

/-- One formatter stage as yielded by `formatters`, tagged with the
options its closure captures. -/
inductive Stage
  | autoflakeFixCode (remove_all_unused_imports remove_unused_variables : Bool)
  | addTrailingCommaToCode
  | autopep8FixCode (filename : String) (aggressive : Nat) (apply_config : Bool)
  | docformatterDoFormatCode
  | docformatterFormatCode
  | unifyFormatCode
  | isortCode
deriving Repr, DecidableEq

/-- The environment of external collaborators.

`runStage` gives the text transformation each yielded stage performs
(possibly raising); `fileBytes` models reading the raw bytes (stdin for
`"-"`, an `open` in binary mode plus `read` otherwise), possibly raising an
`IOError`; `docformatterHasFormatterClass` models the
`inspect.getmembers(docformatter)` probe; `getDiffText` models
`autopep8.get_diff_text`; `findFiles` models `autopep8.find_files`;
`setEnum` models the iteration order of the Python `set(args.files)`:
some duplicate-free enumeration of the given identifiers. -/
structure Ext where
  runStage : Stage → String → Except PyExc String
  fileBytes : String → Except PyExc (List Byte)
  enc : EncodingEnv
  docformatterHasFormatterClass : Bool
  getDiffText : String → String → String → String
  findFiles : List String → Bool → List String → List String
  setEnum : List String → List String
  setEnum_nodup : ∀ l, (setEnum l).Nodup
  setEnum_mem : ∀ l x, x ∈ setEnum l ↔ x ∈ l

/-- Model of `formatters(aggressive, apply_config, filename, ...)`: the ordered
stage list, translated from the yield order of the generator. -/
def formatters (aggressive : Nat) (apply_config : Bool) (filename : String)
    (remove_all_unused_imports remove_unused_variables sort_imports
      add_trailing_comma : Bool) (docformatterHasFormatterClass : Bool) :
    List Stage :=
  (if aggressive ≠ 0 then
    Stage.autoflakeFixCode remove_all_unused_imports remove_unused_variables ::
      (if add_trailing_comma then [Stage.addTrailingCommaToCode] else [])
   else []) ++
  Stage.autopep8FixCode filename aggressive apply_config ::
  (if docformatterHasFormatterClass then Stage.docformatterDoFormatCode
   else Stage.docformatterFormatCode) ::
  Stage.unifyFormatCode ::
  (if sort_imports then [Stage.isortCode] else [])

/-- The `for fix in formatters(...)` loop of `format_code`: apply each
stage in order to the running text; a raising stage aborts the loop and
the exception propagates. -/
def run_pipeline (ext : Ext) : List Stage → String → Except PyExc String
  | [], source => Except.ok source
  | st :: rest, source =>
      match ext.runStage st source with
      | Except.ok out => run_pipeline ext rest out
      | Except.error e => Except.error e

/-- Model of `format_code(source, ...)`. -/
def format_code (ext : Ext) (source : String) (aggressive : Nat)
    (apply_config : Bool) (filename : String)
    (remove_all_unused_imports remove_unused_variables sort_imports
      add_trailing_comma : Bool) : Except PyExc String :=
  run_pipeline ext
    (formatters aggressive apply_config filename remove_all_unused_imports
      remove_unused_variables sort_imports add_trailing_comma
      ext.docformatterHasFormatterClass)
    source

/-- Model of `is_stdin(filename)`. -/
def is_stdin (filename : String) : Bool :=
  filename == "-"

/-- Model of `read_file(filename)`: read raw bytes, detect the encoding with the
default limit, decode the full buffer with the detected encoding.  A
failing full decode raises `UnicodeDecodeError` (which is not an
`IOError`). -/
def read_file (ext : Ext) (filename : String) : Except PyExc (String × String) :=
  match ext.fileBytes filename with
  | Except.error e => Except.error e
  | Except.ok data =>
      let encoding := detect_io_encoding ext.enc data
      match ext.enc.decodes encoding data with
      | some text => Except.ok (text, encoding)
      | none => Except.error PyExc.unicodeDecodeError

/-- The parsed command-line options (`parse_args`). -/
structure Args where
  in_place : Bool
  recursive : Bool
  aggressive : Nat
  remove_all_unused_imports : Bool
  remove_unused_variables : Bool
  sort_imports : Bool
  add_trailing_comma : Bool
  jobs : Nat
  verbose : Bool
  exclude_patterns : List String
  config : Bool
deriving Repr, DecidableEq

/-- One observable write: to the primary output sink, to a file on disk,
or to the error sink (a partial `print` without newline vs a full `print` line). -/
inductive OutEvent
  | stdoutWrite (text : String)
  | fileWrite (filename text encoding : String)
  | stderrWrite (text : String)
  | stderrLine (text : String)
deriving Repr, DecidableEq

/-- Model of `format_file(filename, args, standard_out)`: the per-file
apply/diff/write decision.  Returns the changed flag together with the
writes performed. -/
def format_file (ext : Ext) (filename : String) (args : Args) :
    Except PyExc (Bool × List OutEvent) :=
  match read_file ext filename with
  | Except.error e => Except.error e
  | Except.ok (source, encoding) =>
      if source = "" then Except.ok (false, [])
      else
        match format_code ext source args.aggressive args.config filename
            args.remove_all_unused_imports args.remove_unused_variables
            args.sort_imports args.add_trailing_comma with
        | Except.error e => Except.error e
        | Except.ok formatted_source =>
            if args.in_place = true ∧ is_stdin filename = true then
              Except.ok (true, [OutEvent.stdoutWrite formatted_source])
            else if source ≠ formatted_source then
              if args.in_place = true then
                Except.ok (true,
                  [OutEvent.fileWrite filename formatted_source encoding])
              else
                Except.ok (true,
                  [OutEvent.stdoutWrite
                    (ext.getDiffText source formatted_source filename)])
            else Except.ok (false, [])

/-- Model of `_format_file(parameters)`: wraps `format_file`, catching `IOError`
(diagnostic line, outcome `(False, True)`) and `KeyboardInterrupt`
(outcome `(False, True)`); any other exception propagates.  The result
is `(changed, errored, writes)`. -/
def _format_file (ext : Ext) (filename : String) (args : Args) :
    Except PyExc (Bool × Bool × List OutEvent) :=
  match format_file ext filename args with
  | Except.ok (changed, events) =>
      Except.ok (changed, false,
        (if args.verbose = true then [OutEvent.stderrWrite (filename ++ ": ")]
         else []) ++ events ++
        (if args.verbose = true then
          [OutEvent.stderrLine (if changed = true then "changed" else "unchanged")]
         else []))
  | Except.error (PyExc.ioError msg) =>
      Except.ok (false, true,
        (if args.verbose = true then [OutEvent.stderrWrite (filename ++ ": ")]
         else []) ++ [OutEvent.stderrLine msg])
  | Except.error PyExc.keyboardInterrupt =>
      Except.ok (false, true,
        (if args.verbose = true then [OutEvent.stderrWrite (filename ++ ": ")]
         else []))
  | Except.error e => Except.error e

/-- The per-file loop of `format_multiple_files`: both the sequential
list comprehension and `pool.map` evaluate `_format_file` on every name
in order and propagate an uncaught exception. -/
def run_files (ext : Ext) (args : Args) :
    List String → Except PyExc (List (Bool × Bool × List OutEvent))
  | [] => Except.ok []
  | name :: rest =>
      match _format_file ext name args with
      | Except.error e => Except.error e
      | Except.ok r =>
          match run_files ext args rest with
          | Except.error e => Except.error e
          | Except.ok rs => Except.ok (r :: rs)

/-- Model of `format_multiple_files(filenames, args, ...)`: resolve the file set
with `autopep8.find_files`, process every file, and OR-reduce the
outcomes into `(any_changes, any_errors)`. -/
def format_multiple_files (ext : Ext) (filenames : List String) (args : Args) :
    Except PyExc (Bool × Bool × List OutEvent) :=
  match run_files ext args
      (ext.findFiles filenames args.recursive args.exclude_patterns) with
  | Except.error e => Except.error e
  | Except.ok results =>
      Except.ok (results.any (fun r => r.1), results.any (fun r => r.2.1),
        (results.map (fun r => r.2.2)).flatten)

/-- Model of `_main(argv, standard_out, standard_error)` after argument parsing:
the validation checks, the `set(args.files)` conversion, dispatch, and
the exit status `1 if changed_and_error[1] else 0`. -/
def _main (ext : Ext) (args : Args) (files : List String) :
    Except PyExc (Nat × List OutEvent) :=
  if 1 < args.jobs ∧ args.in_place = false then
    Except.ok (2, [OutEvent.stderrLine "parallel jobs requires --in-place"])
  else if args.aggressive = 0 ∧ args.remove_all_unused_imports = true then
    Except.ok (2,
      [OutEvent.stderrLine "--remove-all-unused-imports requires --aggressive"])
  else if args.aggressive = 0 ∧ args.remove_unused_variables = true then
    Except.ok (2,
      [OutEvent.stderrLine "--remove-unused-variables requires --aggressive"])
  else if args.aggressive = 0 ∧ args.add_trailing_comma = true then
    Except.ok (2,
      [OutEvent.stderrLine "--add-trailing-comma requires --aggressive"])
  else
    match format_multiple_files ext (ext.setEnum files) args with
    | Except.error e => Except.error e
    | Except.ok result =>
        Except.ok (if result.2.1 = true then 1 else 0, result.2.2)

/-! ### Concrete environments used to evaluate the model -/

/-- Bytes of an ASCII string (each code point taken mod 256). -/
def strToBytes (s : String) : List Byte :=
  s.data.map (fun c => (⟨c.toNat % 256, Nat.mod_lt _ (by norm_num)⟩ : Byte))

/-- An encoding layer with no declared-encoding hits: sniffing always
fails, and only latin-1 is a known codec. -/
def fallbackEnv : EncodingEnv where
  sniff := fun _ => Sum.inl SniffErr.syntaxError
  decodes := fun e bs => if e = "latin-1" then some (decodeLatin1 bs) else none
  latin1_total := fun _ => if_pos rfl

/-- A base environment: identity stages, a one-byte file `"a"`
everywhere, latin-1 fallback detection, identity file discovery, and
`set` enumeration by order-of-first-occurrence deduplication. -/
def plainExt : Ext where
  runStage := fun _ s => Except.ok s
  fileBytes := fun _ => Except.ok [(97 : Byte)]
  enc := fallbackEnv
  docformatterHasFormatterClass := false
  getDiffText := fun _ _ _ => ""
  findFiles := fun l _ _ => l
  setEnum := List.dedup
  setEnum_nodup := fun l => l.nodup_dedup
  setEnum_mem := fun _ _ => List.mem_dedup

/-- Variant of `plainExt` with every stage raising `KeyboardInterrupt` (a user
interrupt arriving during a formatting stage). -/
def interruptExt : Ext :=
  { plainExt with runStage := fun _ _ => Except.error PyExc.keyboardInterrupt }

/-- Variant of `plainExt` with every stage raising a non-IOError, non-interrupt
exception. -/
def otherErrExt : Ext :=
  { plainExt with runStage := fun _ _ => Except.error (PyExc.otherError "stage boom") }

/-- Variant of `plainExt` where reading `"bad.py"` raises an `IOError`. -/
def ioErrExt : Ext :=
  { plainExt with
    fileBytes := fun n =>
      if n = "bad.py" then Except.error (PyExc.ioError "cannot read bad.py")
      else Except.ok [(97 : Byte)] }

/-- Variant of `plainExt` with an empty file everywhere. -/
def emptyExt : Ext :=
  { plainExt with fileBytes := fun _ => Except.ok [] }

/-- The default argument record: no flags, one job, diff mode. -/
def baseArgs : Args where
  in_place := false
  recursive := false
  aggressive := 0
  remove_all_unused_imports := false
  remove_unused_variables := false
  sort_imports := false
  add_trailing_comma := false
  jobs := 1
  verbose := false
  exclude_patterns := []
  config := true

/-- In-place mode (for the stdin in-place case). -/
def inPlaceArgs : Args := { baseArgs with in_place := true }

/-- Four parallel jobs without in-place mode (invalid combination). -/
def jobsArgs : Args := { baseArgs with jobs := 4 }

/-- The expected per-file outcomes for the `ioErrExt` batch. -/
def ioErrOutcome (n : String) : Bool × Bool × List OutEvent :=
  if n = "bad.py" then (false, true, [OutEvent.stderrLine "cannot read bad.py"])
  else (false, false, [])

/-- A file whose leading line declares a two-byte-unit encoding, followed
by one valid two-byte code unit: 17 header bytes plus 2 payload bytes,
19 bytes in all. -/
def utf16Bytes : List Byte :=
  strToBytes "# coding: utf-16\n" ++ [(97 : Byte), (0 : Byte)]

/-- Little-endian two-byte-unit decoding of an even-length byte list
(code units outside the valid scalar range are clamped by
`Char.ofNat`; only decodability, not the decoded text, matters here). -/
def decodeUtf16LEChars : List Byte → List Char
  | lo :: hi :: rest => Char.ofNat (lo.val + 256 * hi.val) :: decodeUtf16LEChars rest
  | _ => []

/-- An encoding layer reflecting `lib2to3.pgen2.tokenize.detect_encoding`
and the `utf-16` codec on `utf16Bytes`: the sniffer finds the cookie
`utf-16` after consuming the 17-byte first line, and the `utf-16` codec
requires an even number of bytes (an odd tail byte raises
`UnicodeDecodeError: truncated data`). -/
def utf16Env : EncodingEnv where
  sniff := fun bs =>
    if bs = utf16Bytes then Sum.inr ("utf-16", 17)
    else Sum.inl SniffErr.syntaxError
  decodes := fun e bs =>
    if e = "latin-1" then some (decodeLatin1 bs)
    else if e = "utf-16" then
      (if bs.length % 2 = 0 then some (String.mk (decodeUtf16LEChars bs))
       else none)
    else none
  latin1_total := fun _ => if_pos rfl

/-- Variant of `plainExt` reading `utf16Bytes` through `utf16Env`. -/
def utf16Ext : Ext :=
  { plainExt with
    fileBytes := fun _ => Except.ok utf16Bytes
    enc := utf16Env }

/-! ### Helper lemmas -/

/-- When the `_format_file` call of every file returns normally, the per-file
loop returns the outcome of every file, in order. -/
theorem run_files_ok (ext : Ext) (args : Args)
    (g : String → Bool × Bool × List OutEvent) :
    ∀ l : List String, (∀ n ∈ l, _format_file ext n args = Except.ok (g n)) →
      run_files ext args l = Except.ok (l.map g)
  | [], _ => rfl
  | name :: rest, h => by
      have h1 : _format_file ext name args = Except.ok (g name) :=
        h name (by simp)
      have h2 : run_files ext args rest = Except.ok (rest.map g) :=
        run_files_ok ext args g rest (fun n hn => h n (by simp [hn]))
      simp [run_files, h1, h2]

/-- When the `_format_file` call of every file returns normally, the batch
dispatcher returns the OR-reduction over all per-file outcomes. -/
theorem format_multiple_files_ok (ext : Ext) (args : Args)
    (filenames : List String) (g : String → Bool × Bool × List OutEvent)
    (hok : ∀ n ∈ ext.findFiles filenames args.recursive args.exclude_patterns,
      _format_file ext n args = Except.ok (g n)) :
    format_multiple_files ext filenames args =
      Except.ok
        (((ext.findFiles filenames args.recursive args.exclude_patterns).map g).any
          (fun r => r.1),
         ((ext.findFiles filenames args.recursive args.exclude_patterns).map g).any
          (fun r => r.2.1),
         (((ext.findFiles filenames args.recursive args.exclude_patterns).map g).map
          (fun r => r.2.2)).flatten) := by
  unfold format_multiple_files
  rw [run_files_ok ext args g _ hok]

/-! ### C1: pipeline stage order -/

/-- C1: the stage list produced by `formatters` has the fixed order.
When `aggressive ≥ 1` it is: unused-import/variable remover (autoflake),
then the trailing-comma inserter exactly when `add_trailing_comma` is
set, then the general style fixer (autopep8), the docstring normalizer
(docformatter), the quote-style unifier (unify), and the import sorter
(isort) exactly when `sort_imports` is set — the trailing-comma stage
strictly before the style fixer and the import sorter last.  When
`aggressive = 0` the remover and trailing-comma stages are omitted even
if their flags are set, and the remaining stages keep the same relative
order; the third conjunct shows the sorter, when enabled, is appended
last to the otherwise unchanged list. -/
theorem formatters_stage_order (aggressive : Nat) (apply_config : Bool)
    (filename : String) (rai ruv si atc hf : Bool) :
    (aggressive ≠ 0 →
      formatters aggressive apply_config filename rai ruv si atc hf =
        (Stage.autoflakeFixCode rai ruv ::
          (if atc then [Stage.addTrailingCommaToCode] else [])) ++
        Stage.autopep8FixCode filename aggressive apply_config ::
        (if hf then Stage.docformatterDoFormatCode
         else Stage.docformatterFormatCode) ::
        Stage.unifyFormatCode ::
        (if si then [Stage.isortCode] else [])) ∧
    (aggressive = 0 →
      formatters aggressive apply_config filename rai ruv si atc hf =
        Stage.autopep8FixCode filename aggressive apply_config ::
        (if hf then Stage.docformatterDoFormatCode
         else Stage.docformatterFormatCode) ::
        Stage.unifyFormatCode ::
        (if si then [Stage.isortCode] else [])) ∧
    (formatters aggressive apply_config filename rai ruv true atc hf =
      formatters aggressive apply_config filename rai ruv false atc hf ++
        [Stage.isortCode]) := by
  refine ⟨fun h => ?_, fun h => ?_, ?_⟩
  · simp [formatters, h]
  · simp [formatters, h]
  · by_cases h : aggressive = 0 <;> cases atc <;> cases hf <;>
      simp [formatters, h]

/-- C1 witness: both shapes at concrete flag settings. -/
theorem formatters_stage_order_witness :
    formatters 2 true "f.py" true false true true true =
      [Stage.autoflakeFixCode true false, Stage.addTrailingCommaToCode,
       Stage.autopep8FixCode "f.py" 2 true, Stage.docformatterDoFormatCode,
       Stage.unifyFormatCode, Stage.isortCode] ∧
    formatters 0 true "f.py" true true true true false =
      [Stage.autopep8FixCode "f.py" 0 true, Stage.docformatterFormatCode,
       Stage.unifyFormatCode, Stage.isortCode] := by
  constructor
  · have h := (formatters_stage_order 2 true "f.py" true false true true true).1
      (by norm_num)
    simpa using h
  · have h := (formatters_stage_order 0 true "f.py" true true true true false).2.1
      rfl
    simpa using h

/-! ### C3: encoding detection totality -/

/-- C3 (amended): the encoding detector never raises — every caught
sniffing or validation failure yields the latin-1 fallback, with which
the full byte sequence always decodes, so `read_file` cannot fail in the
fallback case; when the sniffed encoding is returned, the bytes
following the declaration lines consumed by the sniffer (the validated
region under the default unlimited check) are guaranteed decodable —
but only those, not the full sequence. -/
theorem detect_io_encoding_fallback_total (ext : Ext) (name : String)
    (bs : List Byte) (hbytes : ext.fileBytes name = Except.ok bs) :
    (∀ err, ext.enc.sniff bs = Sum.inl err →
      detect_io_encoding ext.enc bs = "latin-1" ∧
      read_file ext name = Except.ok (decodeLatin1 bs, "latin-1")) ∧
    (detect_io_encoding ext.enc bs = "latin-1" →
      read_file ext name = Except.ok (decodeLatin1 bs, "latin-1")) ∧
    (∀ encoding consumed, ext.enc.sniff bs = Sum.inr (encoding, consumed) →
      detect_io_encoding ext.enc bs = encoding ∨
      detect_io_encoding ext.enc bs = "latin-1") ∧
    (∀ encoding consumed, ext.enc.sniff bs = Sum.inr (encoding, consumed) →
      detect_io_encoding ext.enc bs = encoding →
      ∃ t, ext.enc.decodes encoding (bs.drop consumed) = some t) := by
  have hread : ∀ henc : detect_io_encoding ext.enc bs = "latin-1",
      read_file ext name = Except.ok (decodeLatin1 bs, "latin-1") := by
    intro henc
    unfold read_file
    rw [hbytes]
    simp only [henc, ext.enc.latin1_total]
  refine ⟨fun err herr => ?_, hread, fun encoding consumed hsn => ?_,
    fun encoding consumed hsn hdet => ?_⟩
  · have hdet : detect_io_encoding ext.enc bs = "latin-1" := by
      unfold detect_io_encoding
      rw [herr]
    exact ⟨hdet, hread hdet⟩
  · unfold detect_io_encoding
    rw [hsn]
    simp only [show (-1 : Int) < 0 by norm_num, if_true]
    cases hdec : ext.enc.decodes encoding (bs.drop consumed) with
    | some t => exact Or.inl rfl
    | none => exact Or.inr rfl
  · unfold detect_io_encoding at hdet
    rw [hsn] at hdet
    simp only [show (-1 : Int) < 0 by norm_num, if_true] at hdet
    cases hdec : ext.enc.decodes encoding (bs.drop consumed) with
    | some t => exact ⟨t, rfl⟩
    | none =>
        rw [hdec] at hdet
        have hdet2 : "latin-1" = encoding := hdet
        rw [← hdet2] at hdec
        rw [ext.enc.latin1_total] at hdec
        exact absurd hdec (by simp)

/-- C3 witness: with a failing sniffer, latin-1 is detected and the full
one-byte file decodes. -/
theorem detect_io_encoding_fallback_total_witness :
    read_file plainExt "w.py" = Except.ok ("a", "latin-1") := by
  have h :=
    (detect_io_encoding_fallback_total plainExt "w.py" [(97 : Byte)] rfl).1
      SniffErr.syntaxError rfl
  exact h.2

/-- C3 counterexample: a 19-byte file whose first line declares `utf-16`.
The sniffer consumes the 17-byte declaration line, the remaining 2 bytes
validate under `utf-16`, so the detector returns the sniffed encoding —
yet the subsequent full-file decode in `read_file` fails (19 bytes is
not an even number of two-byte units), raising `UnicodeDecodeError`:
reading a file can fail on account of encoding. -/
theorem read_file_sniffed_encoding_counterexample :
    detect_io_encoding utf16Env utf16Bytes = "utf-16" ∧
    read_file utf16Ext "f.py" = Except.error PyExc.unicodeDecodeError := by
  constructor <;> rfl

/-! ### C4: user interrupt outcome -/

/-- C4 (amended): a `KeyboardInterrupt` during the processing of a file is
caught by the per-file wrapper, which returns the outcome
`(changed := false, errored := true)` — not `errored := false` — without
propagating the interrupt further. -/
theorem interrupt_outcome_errored (ext : Ext) (name : String) (args : Args)
    (h : format_file ext name args = Except.error PyExc.keyboardInterrupt) :
    _format_file ext name args =
      Except.ok (false, true,
        if args.verbose = true then [OutEvent.stderrWrite (name ++ ": ")]
        else []) := by
  unfold _format_file
  rw [h]

/-- C4 witness: the amended theorem at a concrete interrupting run. -/
theorem interrupt_outcome_errored_witness :
    _format_file interruptExt "g.py" baseArgs = Except.ok (false, true, []) := by
  have h := interrupt_outcome_errored interruptExt "g.py" baseArgs rfl
  simpa using h

/-- C4 counterexample: with a stage interrupted by `KeyboardInterrupt`,
the wrapper returns `(changed := false, errored := true, no writes)` and
in particular not the claimed `(false, false)` outcome. -/
theorem interrupt_outcome_counterexample :
    format_file interruptExt "h.py" baseArgs =
      Except.error PyExc.keyboardInterrupt ∧
    _format_file interruptExt "h.py" baseArgs = Except.ok (false, true, []) :=
  ⟨rfl, rfl⟩

/-! ### C5: stage failure propagation -/

/-- C5 (amended): a failing stage aborts the pipeline executor and its
exception propagates unmodified (partial results are discarded); at the
per-file boundary only an `IOError` is treated as a recorded, reported
per-file failure (outcome `(false, true)` plus a diagnostic line) and an
interrupt is swallowed; any other exception class propagates unmodified
out of the per-file wrapper as well. -/
theorem stage_error_propagation :
    (∀ (ext : Ext) (done todo : List Stage) (st : Stage)
        (source acc : String) (e : PyExc),
      run_pipeline ext done source = Except.ok acc →
      ext.runStage st acc = Except.error e →
      run_pipeline ext (done ++ st :: todo) source = Except.error e) ∧
    (∀ (ext : Ext) (name : String) (args : Args) (msg : String),
      format_file ext name args = Except.error (PyExc.ioError msg) →
      _format_file ext name args =
        Except.ok (false, true,
          (if args.verbose = true then [OutEvent.stderrWrite (name ++ ": ")]
           else []) ++ [OutEvent.stderrLine msg])) ∧
    (∀ (ext : Ext) (name : String) (args : Args) (e : PyExc),
      format_file ext name args = Except.error e →
      (∀ msg, e ≠ PyExc.ioError msg) → e ≠ PyExc.keyboardInterrupt →
      _format_file ext name args = Except.error e) := by
  refine ⟨?_, ?_, ?_⟩
  · intro ext done todo st source acc e h1 h2
    induction done generalizing source with
    | nil =>
        have hs : source = acc := by
          simpa [run_pipeline] using h1
        subst hs
        simp [run_pipeline, h2]
    | cons p ps ih =>
        rw [List.cons_append]
        unfold run_pipeline at h1 ⊢
        cases h3 : ext.runStage p source with
        | ok out =>
            rw [h3] at h1
            exact ih out h1
        | error e2 =>
            rw [h3] at h1
            exact absurd h1 (by simp)
  · intro ext name args msg h
    unfold _format_file
    rw [h]
  · intro ext name args e h hio hki
    unfold _format_file
    rw [h]
    cases e with
    | ioError msg => exact absurd rfl (hio msg)
    | keyboardInterrupt => exact absurd rfl hki
    | unicodeDecodeError => rfl
    | otherError msg => rfl

/-- C5 witness: the three parts of the amended theorem at concrete
runs — a pipeline aborted by its second stage, an `IOError` recorded as
a per-file outcome with its diagnostic, and a non-IOError escaping the
wrapper. -/
theorem stage_error_propagation_witness :
    run_pipeline otherErrExt
      ([] ++ Stage.unifyFormatCode :: [Stage.isortCode]) "x" =
      Except.error (PyExc.otherError "stage boom") ∧
    _format_file ioErrExt "bad.py" baseArgs =
      Except.ok (false, true, [OutEvent.stderrLine "cannot read bad.py"]) ∧
    _format_file otherErrExt "f.py" baseArgs =
      Except.error (PyExc.otherError "stage boom") := by
  refine ⟨?_, ?_, ?_⟩
  · exact stage_error_propagation.1 otherErrExt [] [Stage.isortCode]
      Stage.unifyFormatCode "x" "x" (PyExc.otherError "stage boom") rfl rfl
  · have h := stage_error_propagation.2.1 ioErrExt "bad.py" baseArgs
      "cannot read bad.py" rfl
    simpa using h
  · exact stage_error_propagation.2.2 otherErrExt "f.py" baseArgs
      (PyExc.otherError "stage boom") rfl (fun msg h => by simp at h)
      (by simp)

/-- C5 counterexample: a stage raising an exception that is neither an
`IOError` nor an interrupt is not handled at the file-unit boundary: the
wrapper re-raises it instead of producing the outcome
`(changed := false, errored := true)`, and the batch dispatcher aborts
instead of continuing with the remaining files. -/
theorem stage_error_escapes_counterexample :
    _format_file otherErrExt "a.py" baseArgs =
      Except.error (PyExc.otherError "stage boom") ∧
    format_multiple_files otherErrExt ["a.py", "b.py"] baseArgs =
      Except.error (PyExc.otherError "stage boom") :=
  ⟨rfl, rfl⟩

/-! ### C6: stdin in-place always emits -/

/-- C6: with `in_place` set and the stdin sentinel `"-"`, a non-empty
input whose pipeline run succeeds always has the formatted text written
to the primary output sink and `changed = true` reported — the
hypotheses place no constraint relating `formatted` to `source`, so this
holds in particular when they are identical. -/
theorem stdin_in_place_always_emits (ext : Ext) (args : Args)
    (source encoding formatted : String)
    (hread : read_file ext "-" = Except.ok (source, encoding))
    (hs : source ≠ "")
    (hip : args.in_place = true)
    (hfmt : format_code ext source args.aggressive args.config "-"
      args.remove_all_unused_imports args.remove_unused_variables
      args.sort_imports args.add_trailing_comma = Except.ok formatted) :
    format_file ext "-" args = Except.ok (true, [OutEvent.stdoutWrite formatted]) := by
  unfold format_file
  rw [hread]
  simp [hs, hfmt, hip, is_stdin]

/-- C6 witness: identity stages on stdin input `"a"` — the formatted
text equals the input, yet it is written to the output sink and
`changed = true` is reported. -/
theorem stdin_in_place_always_emits_witness :
    format_file plainExt "-" inPlaceArgs =
      Except.ok (true, [OutEvent.stdoutWrite "a"]) :=
  stdin_in_place_always_emits plainExt inPlaceArgs "a" "latin-1" "a" rfl
    (by simp) rfl rfl

/-! ### C7: empty input short-circuits -/

/-- C7: when the decoded text is empty, processing short-circuits with
outcome `(changed := false, errored := false)` and no write to the
output sink or disk, for every configuration (diff mode, in-place mode,
and the stdin-sentinel in-place case alike); the last conjunct shows the
result is independent of the stage semantics — the pipeline is neither
composed nor run. -/
theorem empty_input_short_circuit (ext : Ext) (name : String) (args : Args)
    (encoding : String)
    (hread : read_file ext name = Except.ok ("", encoding)) :
    format_file ext name args = Except.ok (false, []) ∧
    _format_file ext name args =
      Except.ok (false, false,
        (if args.verbose = true then [OutEvent.stderrWrite (name ++ ": ")]
         else []) ++
        (if args.verbose = true then [OutEvent.stderrLine "unchanged"]
         else [])) ∧
    (∀ ext2 : Ext, ext2.fileBytes name = ext.fileBytes name →
      ext2.enc = ext.enc →
      format_file ext2 name args = Except.ok (false, [])) := by
  have main : ∀ e : Ext, read_file e name = Except.ok ("", encoding) →
      format_file e name args = Except.ok (false, []) := by
    intro e he
    unfold format_file
    rw [he]
    simp
  refine ⟨main ext hread, ?_, fun ext2 h1 h2 => ?_⟩
  · unfold _format_file
    rw [main ext hread]
    simp
  · refine main ext2 ?_
    unfold read_file
    rw [h1, h2]
    unfold read_file at hread
    exact hread

/-- C7 witness: an empty file under diff mode and under stdin in-place
mode, both with outcome `(false, false)` and no writes. -/
theorem empty_input_short_circuit_witness :
    format_file emptyExt "e.py" baseArgs = Except.ok (false, []) ∧
    _format_file emptyExt "-" inPlaceArgs = Except.ok (false, false, []) := by
  constructor
  · exact (empty_input_short_circuit emptyExt "e.py" baseArgs "latin-1" rfl).1
  · have h :=
      (empty_input_short_circuit emptyExt "-" inPlaceArgs "latin-1" rfl).2.1
    simpa using h

/-! ### C8: I/O errors are recorded and the batch continues -/

/-- C8: a file whose processing raises an `IOError` gets a diagnostic
line on the error sink and the outcome `(changed := false,
errored := true)`, and every other file of the batch — those before it
and those after it — is still processed: the dispatcher returns the
OR-reduction over the outcomes of all files, with the errored flag
set. -/
theorem io_error_batch_continues (ext : Ext) (args : Args)
    (files before after : List String) (bad msg : String)
    (g : String → Bool × Bool × List OutEvent)
    (hfind : ext.findFiles files args.recursive args.exclude_patterns =
      before ++ bad :: after)
    (hbad : format_file ext bad args = Except.error (PyExc.ioError msg))
    (hok : ∀ n ∈ before ++ bad :: after,
      _format_file ext n args = Except.ok (g n)) :
    _format_file ext bad args =
      Except.ok (false, true,
        (if args.verbose = true then [OutEvent.stderrWrite (bad ++ ": ")]
         else []) ++ [OutEvent.stderrLine msg]) ∧
    format_multiple_files ext files args =
      Except.ok (((before ++ bad :: after).map g).any (fun r => r.1),
        ((before ++ bad :: after).map g).any (fun r => r.2.1),
        (((before ++ bad :: after).map g).map (fun r => r.2.2)).flatten) ∧
    ((before ++ bad :: after).map g).any (fun r => r.2.1) = true := by
  have hbadout : _format_file ext bad args =
      Except.ok (false, true,
        (if args.verbose = true then [OutEvent.stderrWrite (bad ++ ": ")]
         else []) ++ [OutEvent.stderrLine msg]) := by
    unfold _format_file
    rw [hbad]
  refine ⟨hbadout, ?_, ?_⟩
  · have h := format_multiple_files_ok ext args files g
      (by rw [hfind]; exact hok)
    rw [hfind] at h
    exact h
  · have hmem : bad ∈ before ++ bad :: after := by simp
    have hgbad := hok bad hmem
    rw [hbadout] at hgbad
    have hgbad2 : (g bad).2.1 = true := by
      rw [← Except.ok.inj hgbad]
    refine List.any_eq_true.2 ⟨g bad, List.mem_map_of_mem g hmem, hgbad2⟩

/-- C8 witness: a three-file batch whose middle file is unreadable — the
diagnostic is emitted, the outcome is `(false, true)`, and the first and
third files are still processed, yielding the aggregate
`(anyChanged := false, anyErrored := true)`. -/
theorem io_error_batch_continues_witness :
    format_multiple_files ioErrExt ["a.py", "bad.py", "b.py"] baseArgs =
      Except.ok (false, true, [OutEvent.stderrLine "cannot read bad.py"]) := by
  have h := (io_error_batch_continues ioErrExt baseArgs
    ["a.py", "bad.py", "b.py"] ["a.py"] ["b.py"] "bad.py"
    "cannot read bad.py" ioErrOutcome rfl rfl ?_).2.1
  · simpa using h
  · intro n hn
    have hn2 : n = "a.py" ∨ n = "bad.py" ∨ n = "b.py" := by
      simpa using hn
    rcases hn2 with h1 | h1 | h1 <;> subst h1 <;> rfl

/-! ### C2: batch aggregation and exit status -/

/-- C2 (amended): the batch result is the pair of OR-reductions over the
per-file `(changed, errored)` outcomes; when validation passes and every
per-file call returns normally, the exit status is `1` exactly when some
outcome is errored and `0` otherwise, where an outcome is errored
exactly when the processing of that file raised an I/O error or a user
interrupt (not only an I/O error, as the interrupt handler also returns
`errored = true`); validation failures (parallel jobs without in-place,
or an aggressive-only flag without `aggressive ≥ 1`) yield the distinct
status `2` before any file is processed. -/
theorem batch_aggregation_and_exit_status :
    (∀ (ext : Ext) (args : Args) (files : List String)
        (g : String → Bool × Bool × List OutEvent),
      (∀ n ∈ ext.findFiles files args.recursive args.exclude_patterns,
        _format_file ext n args = Except.ok (g n)) →
      format_multiple_files ext files args =
        Except.ok
          (((ext.findFiles files args.recursive args.exclude_patterns).map g).any
            (fun r => r.1),
           ((ext.findFiles files args.recursive args.exclude_patterns).map g).any
            (fun r => r.2.1),
           (((ext.findFiles files args.recursive args.exclude_patterns).map g).map
            (fun r => r.2.2)).flatten)) ∧
    (∀ (ext : Ext) (args : Args) (files : List String)
        (g : String → Bool × Bool × List OutEvent),
      ¬(1 < args.jobs ∧ args.in_place = false) →
      ¬(args.aggressive = 0 ∧ args.remove_all_unused_imports = true) →
      ¬(args.aggressive = 0 ∧ args.remove_unused_variables = true) →
      ¬(args.aggressive = 0 ∧ args.add_trailing_comma = true) →
      (∀ n ∈ ext.findFiles (ext.setEnum files) args.recursive
          args.exclude_patterns,
        _format_file ext n args = Except.ok (g n)) →
      _main ext args files =
        Except.ok
          (if ((ext.findFiles (ext.setEnum files) args.recursive
              args.exclude_patterns).map g).any (fun r => r.2.1) = true
           then 1 else 0,
           (((ext.findFiles (ext.setEnum files) args.recursive
              args.exclude_patterns).map g).map (fun r => r.2.2)).flatten)) ∧
    (∀ (ext : Ext) (args : Args) (files : List String),
      1 < args.jobs → args.in_place = false →
      _main ext args files =
        Except.ok (2, [OutEvent.stderrLine "parallel jobs requires --in-place"])) ∧
    (∀ (ext : Ext) (args : Args) (files : List String),
      args.aggressive = 0 →
      (args.remove_all_unused_imports = true ∨
        args.remove_unused_variables = true ∨
        args.add_trailing_comma = true) →
      ∃ msg, _main ext args files = Except.ok (2, [OutEvent.stderrLine msg])) ∧
    (∀ (ext : Ext) (name : String) (args : Args) (changed errored : Bool)
        (events : List OutEvent),
      _format_file ext name args = Except.ok (changed, errored, events) →
      (errored = true ↔
        (∃ msg, format_file ext name args = Except.error (PyExc.ioError msg)) ∨
        format_file ext name args = Except.error PyExc.keyboardInterrupt)) := by
  refine ⟨?_, ?_, ?_, ?_, ?_⟩
  · intro ext args files g hok
    exact format_multiple_files_ok ext args files g hok
  · intro ext args files g h1 h2 h3 h4 hok
    unfold _main
    rw [if_neg h1, if_neg h2, if_neg h3, if_neg h4,
      format_multiple_files_ok ext args (ext.setEnum files) g hok]
  · intro ext args files hj hip
    unfold _main
    rw [if_pos ⟨hj, hip⟩]
  · intro ext args files ha hflag
    unfold _main
    by_cases h1 : 1 < args.jobs ∧ args.in_place = false
    · exact ⟨"parallel jobs requires --in-place", by rw [if_pos h1]⟩
    · rw [if_neg h1]
      by_cases h2 : args.remove_all_unused_imports = true
      · exact ⟨"--remove-all-unused-imports requires --aggressive",
          by rw [if_pos ⟨ha, h2⟩]⟩
      · rw [if_neg (fun hc => h2 hc.2)]
        by_cases h3 : args.remove_unused_variables = true
        · exact ⟨"--remove-unused-variables requires --aggressive",
            by rw [if_pos ⟨ha, h3⟩]⟩
        · rw [if_neg (fun hc => h3 hc.2)]
          have h4 : args.add_trailing_comma = true := by
            rcases hflag with h | h | h
            · exact absurd h h2
            · exact absurd h h3
            · exact h
          exact ⟨"--add-trailing-comma requires --aggressive",
            by rw [if_pos ⟨ha, h4⟩]⟩
  · intro ext name args changed errored events hout
    cases hff : format_file ext name args with
    | ok r =>
        obtain ⟨c2, evts2⟩ := r
        have hval : _format_file ext name args =
            Except.ok (c2, false,
              (if args.verbose = true then
                [OutEvent.stderrWrite (name ++ ": ")] else []) ++ evts2 ++
              (if args.verbose = true then
                [OutEvent.stderrLine
                  (if c2 = true then "changed" else "unchanged")]
               else [])) := by
          unfold _format_file
          rw [hff]
        rw [hval] at hout
        simp only [Except.ok.injEq, Prod.mk.injEq] at hout
        rw [← hout.2.1]
        simp
    | error e =>
        cases e with
        | ioError msg =>
            have hval : _format_file ext name args =
                Except.ok (false, true,
                  (if args.verbose = true then
                    [OutEvent.stderrWrite (name ++ ": ")] else []) ++
                  [OutEvent.stderrLine msg]) := by
              unfold _format_file
              rw [hff]
            rw [hval] at hout
            simp only [Except.ok.injEq, Prod.mk.injEq] at hout
            rw [← hout.2.1]
            simp
        | keyboardInterrupt =>
            have hval : _format_file ext name args =
                Except.ok (false, true,
                  if args.verbose = true then
                    [OutEvent.stderrWrite (name ++ ": ")] else []) := by
              unfold _format_file
              rw [hff]
            rw [hval] at hout
            simp only [Except.ok.injEq, Prod.mk.injEq] at hout
            rw [← hout.2.1]
            simp
        | unicodeDecodeError =>
            have hval : _format_file ext name args =
                Except.error PyExc.unicodeDecodeError := by
              unfold _format_file
              rw [hff]
            rw [hval] at hout
            exact absurd hout (by simp)
        | otherError msg =>
            have hval : _format_file ext name args =
                Except.error (PyExc.otherError msg) := by
              unfold _format_file
              rw [hff]
            rw [hval] at hout
            exact absurd hout (by simp)

/-- C2 witness: the validation branch at a concrete invalid
configuration (`jobs = 4` without in-place), and the aggregation branch
on a concrete one-file unreadable batch giving exit status `1`. -/
theorem batch_aggregation_and_exit_status_witness :
    _main plainExt jobsArgs ["f.py"] =
      Except.ok (2, [OutEvent.stderrLine "parallel jobs requires --in-place"]) ∧
    _main ioErrExt baseArgs ["bad.py"] =
      Except.ok (1, [OutEvent.stderrLine "cannot read bad.py"]) := by
  constructor
  · exact batch_aggregation_and_exit_status.2.2.1 plainExt jobsArgs ["f.py"]
      (by decide) rfl
  · have h := batch_aggregation_and_exit_status.2.1 ioErrExt baseArgs
      ["bad.py"] ioErrOutcome (by decide) (by decide) (by decide) (by decide) ?_
    · simpa using h
    · intro n hn
      have hres : ioErrExt.findFiles (ioErrExt.setEnum ["bad.py"])
          baseArgs.recursive baseArgs.exclude_patterns = ["bad.py"] := rfl
      rw [hres] at hn
      have hn2 : n = "bad.py" := by simpa using hn
      subst hn2
      rfl

/-- C2 counterexample: a run in which no file of the batch raises an I/O
error — the only failure is a `KeyboardInterrupt` during formatting —
still exits with status `1`, not the claimed `0`. -/
theorem exit_status_interrupt_counterexample :
    format_file interruptExt "f.py" baseArgs =
      Except.error PyExc.keyboardInterrupt ∧
    _main interruptExt baseArgs ["f.py"] = Except.ok (1, []) :=
  ⟨rfl, rfl⟩

/-! ### C10: the file arguments are deduplicated via a set -/

/-- C10: `_main` converts the file arguments with `set(...)` before
dispatch, so each identifier reaches the batch dispatcher exactly once
however often it was supplied, identifiers never supplied do not appear,
and the enumeration order is not the command-line order whenever that
order contains a duplicate; when validation passes, the dispatcher is
invoked precisely on that deduplicated enumeration. -/
theorem files_set_dedup_dispatch (ext : Ext) (files : List String) :
    (∀ x ∈ files, (ext.setEnum files).count x = 1) ∧
    (∀ x, x ∉ files → (ext.setEnum files).count x = 0) ∧
    (¬files.Nodup → ext.setEnum files ≠ files) ∧
    (∀ args : Args,
      ¬(1 < args.jobs ∧ args.in_place = false) →
      ¬(args.aggressive = 0 ∧ args.remove_all_unused_imports = true) →
      ¬(args.aggressive = 0 ∧ args.remove_unused_variables = true) →
      ¬(args.aggressive = 0 ∧ args.add_trailing_comma = true) →
      _main ext args files =
        match format_multiple_files ext (ext.setEnum files) args with
        | Except.error e => Except.error e
        | Except.ok result =>
            Except.ok (if result.2.1 = true then 1 else 0, result.2.2)) := by
  refine ⟨fun x hx => ?_, fun x hx => ?_, fun hdup hcontra => ?_,
    fun args h1 h2 h3 h4 => ?_⟩
  · exact List.count_eq_one_of_mem (ext.setEnum_nodup files)
      ((ext.setEnum_mem files x).2 hx)
  · exact List.count_eq_zero.2 (fun hc => hx ((ext.setEnum_mem files x).1 hc))
  · exact hdup (hcontra ▸ ext.setEnum_nodup files)
  · unfold _main
    rw [if_neg h1, if_neg h2, if_neg h3, if_neg h4]

/-- C10 witness: a duplicated command line collapses to a single
occurrence and loses the command-line order. -/
theorem files_set_dedup_dispatch_witness :
    (plainExt.setEnum ["a.py", "b.py", "a.py"]).count "a.py" = 1 ∧
    plainExt.setEnum ["a.py", "b.py", "a.py"] ≠ ["a.py", "b.py", "a.py"] := by
  constructor
  · exact (files_set_dedup_dispatch plainExt ["a.py", "b.py", "a.py"]).1
      "a.py" (by simp)
  · exact (files_set_dedup_dispatch plainExt ["a.py", "b.py", "a.py"]).2.2.1
      (by simp)

end Pyformat
